import Mathlib

/-!
# Verification of the avocado journal plugin (`avocado/plugins/journal.py`)

A shallow embedding of the journal plugin: a sqlite-backed, append-style
journal recording test lifecycle transitions.  The embedding models

* the two sqlite tables (`job_info`, `test_journal`) as Lean lists of rows,
* a sqlite connection as a pair of database snapshots: the `pending` state
  seen by the connection's own cursor, and the `committed` (durable) state
  that a crash-surviving reader of the file would observe; `commit` copies
  `pending` onto `committed`,
* Python exceptions (`AttributeError`, `KeyError`,
  `sqlite3.OperationalError`) via `Except`,
* `datetime.datetime(1, 1, 1).now().isoformat()` faithfully: in Python
  `now` is a `classmethod`, so calling it on the throw-away instance
  `datetime(1, 1, 1)` ignores that instance and returns the *current*
  wall-clock time.  The current clock reading is threaded through the
  write path as an explicit argument.

The base class `avocado.result.TestResult` is outside the plugin source
(an external collaborator per the spec); its `start_test`/`end_test`
bookkeeping touches no journal state, so the embedding of
`TestResultJournal.start_test`/`end_test` keeps only the journal-relevant
effects.
-/

/-- Python exceptions that the journal code can raise. -/
inductive PyError where
  | attributeError
  | keyError
  | sqlOperationalError
deriving Repr, DecidableEq

/-! ## A model of `datetime.datetime` and its ISO-8601 rendering -/

/-- A naive `datetime.datetime` value (no tzinfo, as produced by
`datetime.now()`). -/
structure PyDateTime where
  year : Nat
  month : Nat
  day : Nat
  hour : Nat
  minute : Nat
  second : Nat
  microsecond : Nat
deriving Repr, DecidableEq

/-- The range restrictions `datetime.datetime` enforces on its fields
(`MINYEAR = 1`, `MAXYEAR = 9999`, and the usual calendar/clock bounds). -/
def PyDateTime.valid (d : PyDateTime) : Prop :=
  1 ≤ d.year ∧ d.year ≤ 9999 ∧ 1 ≤ d.month ∧ d.month ≤ 12 ∧
  1 ≤ d.day ∧ d.day ≤ 31 ∧ d.hour ≤ 23 ∧ d.minute ≤ 59 ∧
  d.second ≤ 59 ∧ d.microsecond ≤ 999999

instance (d : PyDateTime) : Decidable d.valid := by
  unfold PyDateTime.valid; infer_instance

/-- `datetime.now` is a `classmethod`: invoked through an instance, Python's
descriptor protocol binds it to the class, so the instance is discarded and
the current wall-clock reading is returned.  The clock reading is an
explicit parameter of the model. -/
def PyDateTime.now (_self : PyDateTime) (clock : PyDateTime) : PyDateTime :=
  clock

/-- The character for one decimal digit. -/
def natDigitChar : Nat → Char
  | 0 => '0' | 1 => '1' | 2 => '2' | 3 => '3' | 4 => '4'
  | 5 => '5' | 6 => '6' | 7 => '7' | 8 => '8' | _ => '9'

/-- `n` rendered in decimal, zero-padded to exactly `w` characters (the
`%0wd` rendering CPython uses inside `datetime.isoformat`; exact as long
as `n < 10^w`, which the `valid` bounds guarantee for every field). -/
def padDigits (w n : Nat) : List Char :=
  match w with
  | 0 => []
  | w + 1 => padDigits w (n / 10) ++ [natDigitChar (n % 10)]

/-- The character data of `d.isoformat()`:
`YYYY-MM-DDTHH:MM:SS` followed by `.ffffff` exactly when the microsecond
field is nonzero (CPython omits the fractional part when it is zero). -/
def PyDateTime.isoformatData (d : PyDateTime) : List Char :=
  padDigits 4 d.year ++ '-' ::
  (padDigits 2 d.month ++ '-' ::
  (padDigits 2 d.day ++ 'T' ::
  (padDigits 2 d.hour ++ ':' ::
  (padDigits 2 d.minute ++ ':' ::
  (padDigits 2 d.second ++
    (if d.microsecond = 0 then [] else '.' :: padDigits 6 d.microsecond))))))

/-- `d.isoformat()` as a Lean string. -/
def PyDateTime.isoformat (d : PyDateTime) : String :=
  ⟨d.isoformatData⟩

/-- The fields of a datetime in order of chronological significance. -/
def PyDateTime.toFields (d : PyDateTime) : List Nat :=
  [d.year, d.month, d.day, d.hour, d.minute, d.second, d.microsecond]

/-- Lexicographic strict order on equal-length `Nat` lists. -/
def natListLtb : List Nat → List Nat → Bool
  | _, [] => false
  | [], _ :: _ => true
  | a :: as, b :: bs => a < b || (a == b && natListLtb as bs)

/-- `a` is chronologically strictly earlier than `b`. -/
def PyDateTime.chronoLt (a b : PyDateTime) : Prop :=
  natListLtb a.toFields b.toFields = true

/-- `a` is chronologically no later than `b`. -/
def PyDateTime.chronoLe (a b : PyDateTime) : Prop :=
  a.chronoLt b ∨ a = b

instance (a b : PyDateTime) : Decidable (a.chronoLt b) := by
  unfold PyDateTime.chronoLt; infer_instance

instance (a b : PyDateTime) : Decidable (a.chronoLe b) := by
  unfold PyDateTime.chronoLe; infer_instance

/-! ## `os.path.join` (POSIX, two arguments) -/

/-- Python `s.startswith(pre)`. -/
def strStartsWith (s pre : String) : Bool :=
  pre.data.isPrefixOf s.data

/-- Python `s.endswith(suf)`. -/
def strEndsWith (s suf : String) : Bool :=
  suf.data.reverse.isPrefixOf s.data.reverse

/-- POSIX `os.path.join(a, b)`: an absolute second component replaces the
first; otherwise the two are joined, inserting `/` unless `a` is empty or
already ends with `/`. -/
def osPathJoin (a b : String) : String :=
  if strStartsWith b "/" then b
  else if a = "" ∨ strEndsWith a "/" then a ++ b
  else a ++ "/" ++ b

/-! ## The sqlite database model -/

/-- Module constant `JOURNAL_FILENAME` of `journal.py`. -/
def JOURNAL_FILENAME : String := ".journal.sqlite"

/-- Module constant `SCHEMA` of `journal.py`: dict from table name to its
CREATE statement, in insertion (= iteration) order. -/
def SCHEMA : List (String × String) :=
  [("job_info", "CREATE TABLE job_info (unique_id TEXT UNIQUE)"),
   ("test_journal",
    "CREATE TABLE test_journal (tag TEXT, time TEXT, action TEXT, status TEXT, flushed BOOLEAN DEFAULT 0)")]

/-- One row of the `test_journal` table. -/
structure JournalRow where
  tag : String
  time : String
  action : String
  status : Option String
  flushed : Bool
deriving Repr, DecidableEq

/-- The content of one journal sqlite file: which of the two schema tables
exist, and their rows (`job_info` rows are bare `unique_id` strings). -/
structure DB where
  hasJobInfo : Bool
  hasTestJournal : Bool
  job_info : List String
  test_journal : List JournalRow
deriving Repr, DecidableEq

/-- A freshly created sqlite file: no tables, no rows. -/
def emptyDB : DB := ⟨false, false, [], []⟩

/-- Whether table `t` exists in the database. -/
def DB.hasTable (db : DB) (t : String) : Bool :=
  if t = "job_info" then db.hasJobInfo
  else if t = "test_journal" then db.hasTestJournal
  else false

/-- The rows returned by `PRAGMA table_info('t')`: one row per column when
the table exists, none otherwise.  Only the emptiness of this list is ever
consumed (`fetchone() is None`), so the rows are the column names. -/
def pragmaTableInfo (db : DB) (t : String) : List String :=
  if db.hasTable t then
    if t = "job_info" then ["unique_id"]
    else ["tag", "time", "action", "status", "flushed"]
  else []

/-- Executing `SCHEMA[t]`, i.e. the CREATE TABLE statement for `t`.
sqlite raises `OperationalError` if the table already exists. -/
def DB.createTable (db : DB) (t : String) : Except PyError DB :=
  if db.hasTable t then .error .sqlOperationalError
  else if t = "job_info" then .ok { db with hasJobInfo := true }
  else if t = "test_journal" then .ok { db with hasTestJournal := true }
  else .error .sqlOperationalError

/-- `INSERT INTO job_info (unique_id) VALUES (?)`. -/
def DB.insertJobInfo (db : DB) (uid : String) : Except PyError DB :=
  if db.hasJobInfo then .ok { db with job_info := db.job_info ++ [uid] }
  else .error .sqlOperationalError

/-- `INSERT INTO test_journal (tag, time, action, status) VALUES (?, ?, ?, ?)`;
the unnamed `flushed` column takes its schema default `0`. -/
def DB.insertTestJournal (db : DB) (tag time action : String)
    (status : Option String) : Except PyError DB :=
  if db.hasTestJournal then
    .ok { db with test_journal :=
      db.test_journal ++ [⟨tag, time, action, status, false⟩] }
  else .error .sqlOperationalError

/-- A sqlite connection: the file path it was opened on, the state its own
cursor sees (`pending`), and the durable state a reader reopening the file
would see (`committed`). -/
structure Conn where
  path : String
  pending : DB
  committed : DB
deriving Repr, DecidableEq

/-- `sqlite3.connect(path)`: opens the file, creating an empty database when
the file does not exist.  `file` is the on-disk content at `path`. -/
def sqlite3Connect (path : String) (file : Option DB) : Conn :=
  let db := file.getD emptyDB
  ⟨path, db, db⟩

/-- `connection.commit()`: makes all pending writes durable. -/
def Conn.commit (c : Conn) : Conn :=
  { c with committed := c.pending }

/-! ## The `TestResultJournal` recorder -/

/-- The `state` dict the framework passes to the notification methods.
`status` is the only key a lifecycle path may legitimately omit, so it is
modelled as `Option`: `none` means the key is absent and subscripting it
raises `KeyError`. -/
structure State where
  job_logdir : String
  job_unique_id : String
  tagged_name : String
  status : Option String
deriving Repr, DecidableEq

/-- `state['status']`. -/
def State.getStatus (s : State) : Except PyError String :=
  match s.status with
  | some v => .ok v
  | none => .error .keyError

/-- A `TestResultJournal` instance.  `journal_path` and `journal` model the
attributes that only `_init_journal` assigns: while they are `none` the
attribute does not exist and reading it raises `AttributeError`.  The
connection and its cursor are one object here (`journal`). -/
structure Recorder where
  journal_initialized : Bool
  journal_path : Option String
  journal : Option Conn
deriving Repr, DecidableEq

/-- `TestResultJournal.__init__`: only `journal_initialized = False` is set;
`journal_path`/`journal` remain unassigned. -/
def TestResultJournal_new : Recorder := ⟨false, none, none⟩

/-- Reading `self.journal` (equivalently `self.journal_cursor`). -/
def Recorder.getConn (r : Recorder) : Except PyError Conn :=
  match r.journal with
  | some c => .ok c
  | none => .error .attributeError

/-- `TestResultJournal._init_journal(logdir)`: connect to
`os.path.join(logdir, JOURNAL_FILENAME)`, create each SCHEMA table whose
`PRAGMA table_info` comes back empty, and commit.  `file` is the on-disk
content of the journal file (none when it does not exist yet). -/
def Recorder.init_journal (r : Recorder) (file : Option DB) (logdir : String) :
    Except PyError Recorder := do
  let path := osPathJoin logdir JOURNAL_FILENAME
  let conn := sqlite3Connect path file
  let db ← SCHEMA.foldlM (fun (db : DB) t =>
    if (pragmaTableInfo db t.1).head? = none then db.createTable t.1
    else .ok db) conn.pending
  let conn := Conn.commit { conn with pending := db }
  .ok { r with journal_path := some path, journal := some conn }

/-- `TestResultJournal._record_job_info(state)`: `SELECT unique_id FROM
job_info`; insert `state['job_unique_id']` and commit only when
`fetchone()` returned no row. -/
def Recorder.record_job_info (r : Recorder) (state : State) :
    Except PyError Recorder := do
  let conn ← r.getConn
  if conn.pending.hasJobInfo then
    match conn.pending.job_info.head? with
    | some _ => .ok r
    | none => do
        let db ← conn.pending.insertJobInfo state.job_unique_id
        .ok { r with journal := some (Conn.commit { conn with pending := db }) }
  else .error .sqlOperationalError

/-- `TestResultJournal.lazy_init_journal(state)`: on the first notification
open the journal file under `state['job_logdir']`, record the job info and
set the flag; afterwards do nothing. -/
def Recorder.lazy_init_journal (r : Recorder) (file : Option DB) (state : State) :
    Except PyError Recorder :=
  if !r.journal_initialized then do
    let r ← r.init_journal file state.job_logdir
    let r ← r.record_job_info state
    .ok { r with journal_initialized := true }
  else .ok r

/-- `TestResultJournal._record_status(state, action)`: compute the status
value (`state['status']` for `"ENDED"`, `None` otherwise), insert one
`test_journal` row whose time is
`datetime.datetime(1, 1, 1).now().isoformat()` evaluated at the current
clock reading, and commit. -/
def Recorder.record_status (r : Recorder) (state : State) (action : String)
    (clock : PyDateTime) : Except PyError Recorder := do
  let status ← if action = "ENDED" then do
      let v ← state.getStatus
      pure (some v)
    else pure none
  let conn ← r.getConn
  let time := ((PyDateTime.mk 1 1 1 0 0 0 0).now clock).isoformat
  let db ← conn.pending.insertTestJournal state.tagged_name time action status
  .ok { r with journal := some (Conn.commit { conn with pending := db }) }

/-- `TestResultJournal._shutdown_journal()`: `self.journal.close()`.
Closing releases the handle and performs no SQL; reading the attribute on a
never-initialized recorder raises `AttributeError`. -/
def Recorder.shutdown_journal (r : Recorder) : Except PyError Recorder :=
  match r.journal with
  | some _ => .ok r
  | none => .error .attributeError

/-- `TestResultJournal.start_test(state)`.  The intervening
`TestResult.start_test` call (base class, outside the plugin) does not
touch journal state. -/
def Recorder.start_test (r : Recorder) (file : Option DB) (state : State)
    (clock : PyDateTime) : Except PyError Recorder := do
  let r ← r.lazy_init_journal file state
  r.record_status state "STARTED" clock

/-- `TestResultJournal.end_test(state)`. -/
def Recorder.end_test (r : Recorder) (file : Option DB) (state : State)
    (clock : PyDateTime) : Except PyError Recorder := do
  let r ← r.lazy_init_journal file state
  r.record_status state "ENDED" clock

/-- `TestResultJournal.end_tests()`. -/
def Recorder.end_tests (r : Recorder) : Except PyError Recorder :=
  r.shutdown_journal

/-! ## Whole-run semantics -/

/-- One lifecycle notification delivered to the recorder, together with the
wall-clock reading at the moment of the call. -/
inductive Event where
  | startT (state : State) (clock : PyDateTime)
  | endT (state : State) (clock : PyDateTime)
deriving Repr, DecidableEq

/-- Dispatch one notification.  `file` is the on-disk content of the
journal file before the recorder first opened it. -/
def Recorder.step (r : Recorder) (file : Option DB) : Event → Except PyError Recorder
  | .startT s t => r.start_test file s t
  | .endT s t => r.end_test file s t

/-- Deliver a list of notifications in order; any raised exception aborts
the run, as in Python. -/
def Recorder.run (r : Recorder) (file : Option DB) :
    List Event → Except PyError Recorder
  | [] => .ok r
  | e :: es => do
      let r' ← r.step file e
      r'.run file es

/-- The `test_journal` rows an observer of the recorder's database would
see: the open connection's rows once one exists, the on-disk file's rows
before that. -/
def journalRows (file : Option DB) (r : Recorder) : List JournalRow :=
  match r.journal with
  | some c => c.pending.test_journal
  | none => (file.getD emptyDB).test_journal

/-- The `job_info` rows, analogously. -/
def jobInfoRows (file : Option DB) (r : Recorder) : List String :=
  match r.journal with
  | some c => c.pending.job_info
  | none => (file.getD emptyDB).job_info

/-! ## Concrete fixtures used by the witnesses -/

/-- A journal database as it looks after initialization and job-info
recording: both tables present, one `job_info` row. -/
def sampleDB : DB := ⟨true, true, ["job-123"], []⟩

def sampleConn : Conn := ⟨"/tmp/run1/.journal.sqlite", sampleDB, sampleDB⟩

/-- An Active recorder bound to `sampleConn`. -/
def sampleRec : Recorder :=
  ⟨true, some "/tmp/run1/.journal.sqlite", some sampleConn⟩

def sampleState : State := ⟨"/tmp/run1", "job-123", "testA", some "PASS"⟩

def sampleClock : PyDateTime := ⟨2014, 3, 7, 9, 5, 2, 0⟩

def sampleClock2 : PyDateTime := ⟨2014, 3, 7, 9, 5, 2, 123⟩

def sampleRowStarted : JournalRow :=
  ⟨"testA", "2014-03-07T09:05:02", "STARTED", none, false⟩

def sampleRowEnded : JournalRow :=
  ⟨"testA", "2014-03-07T09:05:02.000123", "ENDED", some "PASS", false⟩

def sampleDB1 : DB := ⟨true, true, ["job-123"], [sampleRowStarted]⟩

def sampleConn1 : Conn := ⟨"/tmp/run1/.journal.sqlite", sampleDB1, sampleDB1⟩

def sampleRec1 : Recorder :=
  ⟨true, some "/tmp/run1/.journal.sqlite", some sampleConn1⟩

def sampleDB2 : DB := ⟨true, true, ["job-123"], [sampleRowStarted, sampleRowEnded]⟩

def sampleConn2 : Conn := ⟨"/tmp/run1/.journal.sqlite", sampleDB2, sampleDB2⟩

def sampleRec2 : Recorder :=
  ⟨true, some "/tmp/run1/.journal.sqlite", some sampleConn2⟩

def sampleRowEnded0 : JournalRow :=
  ⟨"testA", "2014-03-07T09:05:02", "ENDED", some "PASS", false⟩

def sampleDBE : DB := ⟨true, true, ["job-123"], [sampleRowEnded0]⟩

def sampleConnE : Conn := ⟨"/tmp/run1/.journal.sqlite", sampleDBE, sampleDBE⟩

def sampleRecE : Recorder :=
  ⟨true, some "/tmp/run1/.journal.sqlite", some sampleConnE⟩

/-! ## Lexicographic facts about the ISO-8601 rendering -/

theorem lex_append_left (as : List Char) {t u : List Char}
    (h : List.Lex (· < ·) t u) : List.Lex (· < ·) (as ++ t) (as ++ u) := by
  induction as with
  | nil => exact h
  | cons a as ih => exact List.Lex.cons ih

theorem lex_append_of_length_eq :
    ∀ (as bs : List Char), as.length = bs.length → List.Lex (· < ·) as bs →
      ∀ (t u : List Char), List.Lex (· < ·) (as ++ t) (bs ++ u)
  | [], [], _, h, _, _ => by cases h
  | [], _ :: _, hlen, _, _, _ => by simp at hlen
  | _ :: _, [], hlen, _, _, _ => by simp at hlen
  | a :: as, b :: bs, hlen, h, t, u => by
      cases h with
      | cons h' =>
          exact List.Lex.cons (lex_append_of_length_eq as bs (by simpa using hlen) h' t u)
      | rel h' => exact List.Lex.rel h'

theorem padDigits_length (w n : Nat) : (padDigits w n).length = w := by
  induction w generalizing n with
  | zero => rfl
  | succ w ih => simp [padDigits, ih]

theorem natDigitChar_lt_of_lt {x y : Nat} (hx : x < 10) (hy : y < 10)
    (hxy : x < y) : natDigitChar x < natDigitChar y :=
  (by decide : ∀ x, x < 10 → ∀ y, y < 10 → x < y →
    natDigitChar x < natDigitChar y) x hx y hy hxy

theorem padDigits_lex_lt :
    ∀ (w : Nat) {n m : Nat}, n < m → m < 10 ^ w →
      List.Lex (· < ·) (padDigits w n) (padDigits w m)
  | 0, n, m, hnm, hm => by simp [pow_zero] at hm; omega
  | w + 1, n, m, hnm, hm => by
      have hm10 : m / 10 < 10 ^ w := by
        apply Nat.div_lt_of_lt_mul
        rw [pow_succ] at hm
        omega
      rcases Nat.lt_or_ge (n / 10) (m / 10) with h | h
      · exact lex_append_of_length_eq _ _
          (by simp [padDigits_length]) (padDigits_lex_lt w h hm10) _ _
      · have hq : n / 10 = m / 10 :=
          le_antisymm (Nat.div_le_div_right (le_of_lt hnm)) h
        have hr : n % 10 < m % 10 := by
          have h1 := Nat.div_add_mod n 10
          have h2 := Nat.div_add_mod m 10
          omega
        rw [show padDigits (w + 1) n = padDigits w (n / 10) ++ [natDigitChar (n % 10)] from rfl,
            show padDigits (w + 1) m = padDigits w (m / 10) ++ [natDigitChar (m % 10)] from rfl,
            hq]
        exact lex_append_left _
          (List.Lex.rel (natDigitChar_lt_of_lt (Nat.mod_lt _ (by omega))
            (Nat.mod_lt _ (by omega)) hr))

theorem isoformatData_lex_lt {a b : PyDateTime} (ha : a.valid) (hb : b.valid)
    (h : a.chronoLt b) :
    List.Lex (· < ·) a.isoformatData b.isoformatData := by
  obtain ⟨y1, mo1, d1, h1, mi1, s1, u1⟩ := a
  obtain ⟨y2, mo2, d2, h2, mi2, s2, u2⟩ := b
  simp only [PyDateTime.valid] at ha hb
  obtain ⟨-, hy1, -, hmo1, -, hd1, hh1, hmi1, hs1, hu1⟩ := ha
  obtain ⟨-, hy2, -, hmo2, -, hd2, hh2, hmi2, hs2, hu2⟩ := hb
  simp only [PyDateTime.chronoLt, PyDateTime.toFields, natListLtb,
    Bool.or_eq_true, Bool.and_eq_true, decide_eq_true_eq, beq_iff_eq] at h
  have e4 : (10 : Nat) ^ 4 = 10000 := by norm_num
  have e2 : (10 : Nat) ^ 2 = 100 := by norm_num
  have e6 : (10 : Nat) ^ 6 = 1000000 := by norm_num
  simp only [PyDateTime.isoformatData]
  rcases h with hy | ⟨rfl, h⟩
  · exact lex_append_of_length_eq _ _ (by simp [padDigits_length])
      (padDigits_lex_lt 4 hy (by omega)) _ _
  rcases h with hmo | ⟨rfl, h⟩
  · apply lex_append_left
    apply List.Lex.cons
    exact lex_append_of_length_eq _ _ (by simp [padDigits_length])
      (padDigits_lex_lt 2 hmo (by omega)) _ _
  rcases h with hd | ⟨rfl, h⟩
  · apply lex_append_left
    apply List.Lex.cons
    apply lex_append_left
    apply List.Lex.cons
    exact lex_append_of_length_eq _ _ (by simp [padDigits_length])
      (padDigits_lex_lt 2 hd (by omega)) _ _
  rcases h with hh | ⟨rfl, h⟩
  · repeat' first | apply lex_append_left | apply List.Lex.cons
    exact lex_append_of_length_eq _ _ (by simp [padDigits_length])
      (padDigits_lex_lt 2 hh (by omega)) _ _
  rcases h with hmi | ⟨rfl, h⟩
  · repeat' first | apply lex_append_left | apply List.Lex.cons
    exact lex_append_of_length_eq _ _ (by simp [padDigits_length])
      (padDigits_lex_lt 2 hmi (by omega)) _ _
  rcases h with hs | ⟨rfl, h⟩
  · repeat' first | apply lex_append_left | apply List.Lex.cons
    exact lex_append_of_length_eq _ _ (by simp [padDigits_length])
      (padDigits_lex_lt 2 hs (by omega)) _ _
  rcases h with hu | ⟨rfl, h⟩
  · repeat' first | apply lex_append_left | apply List.Lex.cons
    have hu2pos : u2 ≠ 0 := by omega
    rw [if_neg hu2pos]
    by_cases hz : u1 = 0
    · rw [if_pos hz]
      exact List.Lex.nil
    · rw [if_neg hz]
      exact List.Lex.cons (padDigits_lex_lt 6 hu (by omega))
  · exact absurd h (by simp [natListLtb])

theorem isoformat_lt_of_chronoLt {a b : PyDateTime} (ha : a.valid) (hb : b.valid)
    (h : a.chronoLt b) : a.isoformat < b.isoformat := by
  rw [String.lt_iff_toList_lt]
  exact isoformatData_lex_lt ha hb h

theorem isoformat_le_of_chronoLe {a b : PyDateTime} (ha : a.valid) (hb : b.valid)
    (h : a.chronoLe b) : a.isoformat ≤ b.isoformat := by
  rcases h with h | rfl
  · exact le_of_lt (isoformat_lt_of_chronoLt ha hb h)
  · exact le_refl _

/-! ## Characterizations of the recorder operations -/

theorem ensure_tables_eq (db : DB) :
    SCHEMA.foldlM (fun (db : DB) t =>
      if (pragmaTableInfo db t.1).head? = none then db.createTable t.1
      else Except.ok db) db =
    Except.ok { db with hasJobInfo := true, hasTestJournal := true } := by
  obtain ⟨hj, htj, ji, tj⟩ := db
  cases hj <;> cases htj <;> rfl

theorem init_journal_eq (r : Recorder) (file : Option DB) (logdir : String) :
    r.init_journal file logdir = Except.ok
      { r with
        journal_path := some (osPathJoin logdir JOURNAL_FILENAME),
        journal := some ⟨osPathJoin logdir JOURNAL_FILENAME,
          { file.getD emptyDB with hasJobInfo := true, hasTestJournal := true },
          { file.getD emptyDB with hasJobInfo := true, hasTestJournal := true }⟩ } := by
  rcases file with _ | ⟨⟨hj, htj, ji, tj⟩⟩
  · rfl
  · cases hj <;> cases htj <;> rfl

theorem record_job_info_eq (r : Recorder) (conn : Conn) (state : State)
    (hconn : r.journal = some conn) (htab : conn.pending.hasJobInfo = true) :
    r.record_job_info state = Except.ok
      (if conn.pending.job_info = [] then
        { r with journal := some (Conn.commit { conn with pending :=
          { conn.pending with job_info :=
              conn.pending.job_info ++ [state.job_unique_id] } }) }
       else r) := by
  unfold Recorder.record_job_info
  simp only [Recorder.getConn, hconn, htab, DB.insertJobInfo, bind,
    Except.bind, if_true, reduceIte]
  cases hji : conn.pending.job_info with
  | nil => simp [hji]
  | cons x xs => simp [hji]

theorem record_status_ok_eq {r r' : Recorder} {conn : Conn} {state : State}
    {action : String} {clock : PyDateTime}
    (hconn : r.journal = some conn)
    (hok : r.record_status state action clock = Except.ok r') :
    conn.pending.hasTestJournal = true ∧
    (action = "ENDED" → state.status ≠ none) ∧
    r' = { r with journal := some (Conn.commit { conn with pending :=
      { conn.pending with test_journal := conn.pending.test_journal ++
        [⟨state.tagged_name, clock.isoformat, action,
          (if action = "ENDED" then state.status else none), false⟩] } }) } := by
  unfold Recorder.record_status at hok
  by_cases hact : action = "ENDED"
  · subst hact
    simp only [if_pos, reduceIte, State.getStatus, Recorder.getConn, hconn,
      bind, Except.bind, pure, Except.pure] at hok
    cases hst : state.status with
    | none => simp [hst] at hok
    | some v =>
        simp only [hst, DB.insertTestJournal] at hok
        by_cases htab : conn.pending.hasTestJournal = true
        · simp only [htab, if_true, reduceIte] at hok
          cases hok
          exact ⟨htab, fun _ => by simp [hst], by simp [hst, PyDateTime.now, htab]⟩
        · simp [htab] at hok
  · simp only [hact, reduceIte, Recorder.getConn, hconn,
      DB.insertTestJournal, bind, Except.bind, pure, Except.pure] at hok
    by_cases htab : conn.pending.hasTestJournal = true
    · simp only [htab, if_true, reduceIte] at hok
      cases hok
      exact ⟨htab, fun h => absurd h hact, by simp [hact, PyDateTime.now, htab]⟩
    · simp [htab] at hok

theorem record_status_started_eq (r : Recorder) (conn : Conn) (state : State)
    (clock : PyDateTime)
    (hconn : r.journal = some conn) (htab : conn.pending.hasTestJournal = true) :
    r.record_status state "STARTED" clock = Except.ok
      { r with journal := some (Conn.commit { conn with pending :=
        { conn.pending with test_journal := conn.pending.test_journal ++
          [⟨state.tagged_name, clock.isoformat, "STARTED", none, false⟩] } }) } := by
  unfold Recorder.record_status
  simp [Recorder.getConn, hconn, htab, DB.insertTestJournal, PyDateTime.now,
    bind, Except.bind, pure, Except.pure]

theorem record_status_ended_eq (r : Recorder) (conn : Conn) (state : State)
    (clock : PyDateTime) (v : String)
    (hconn : r.journal = some conn) (htab : conn.pending.hasTestJournal = true)
    (hst : state.status = some v) :
    r.record_status state "ENDED" clock = Except.ok
      { r with journal := some (Conn.commit { conn with pending :=
        { conn.pending with test_journal := conn.pending.test_journal ++
          [⟨state.tagged_name, clock.isoformat, "ENDED", some v, false⟩] } }) } := by
  unfold Recorder.record_status
  simp [Recorder.getConn, hconn, htab, hst, State.getStatus,
    DB.insertTestJournal, PyDateTime.now, bind, Except.bind, pure, Except.pure]

theorem lazy_init_initialized_eq (r : Recorder) (file : Option DB)
    (state : State) (h : r.journal_initialized = true) :
    r.lazy_init_journal file state = Except.ok r := by
  simp [Recorder.lazy_init_journal, h]

theorem lazy_init_uninitialized_eq (r : Recorder) (file : Option DB)
    (state : State) (h : r.journal_initialized = false) :
    r.lazy_init_journal file state = Except.ok
      ⟨true, some (osPathJoin state.job_logdir JOURNAL_FILENAME),
       some ⟨osPathJoin state.job_logdir JOURNAL_FILENAME,
         { file.getD emptyDB with
             hasJobInfo := true
             hasTestJournal := true
             job_info := if (file.getD emptyDB).job_info = [] then
               [state.job_unique_id] else (file.getD emptyDB).job_info },
         { file.getD emptyDB with
             hasJobInfo := true
             hasTestJournal := true
             job_info := if (file.getD emptyDB).job_info = [] then
               [state.job_unique_id] else (file.getD emptyDB).job_info }⟩⟩ := by
  unfold Recorder.lazy_init_journal
  rw [h]
  simp only [Bool.not_false, if_true, reduceIte, bind, Except.bind,
    init_journal_eq]
  rw [record_job_info_eq _ ⟨osPathJoin state.job_logdir JOURNAL_FILENAME,
      { file.getD emptyDB with hasJobInfo := true, hasTestJournal := true },
      { file.getD emptyDB with hasJobInfo := true, hasTestJournal := true }⟩
      state rfl rfl]
  cases hji : (file.getD emptyDB).job_info with
  | nil => simp [hji, Conn.commit]
  | cons x xs => simp [hji, Conn.commit]

/-! ## The claims -/

/-- C1: every call to `_record_status` that returns (reached via
`start_test`/`end_test` on an Active recorder, i.e. one whose `journal`
connection is open) inserts exactly one row into `test_journal` — leaving
`job_info` and the connection's path untouched — and issues a durability
commit on the connection before returning, so the committed state equals
the pending state; nothing is batched or deferred. -/
theorem C1_record_status_appends_one_row_and_commits
    (r r' : Recorder) (conn : Conn) (state : State) (action : String)
    (clock : PyDateTime)
    (hconn : r.journal = some conn)
    (hok : r.record_status state action clock = Except.ok r') :
    ∃ c' st, r'.journal = some c' ∧
      c'.pending.test_journal = conn.pending.test_journal ++
        [⟨state.tagged_name, clock.isoformat, action, st, false⟩] ∧
      c'.committed = c'.pending ∧
      c'.pending.job_info = conn.pending.job_info ∧
      c'.path = conn.path := by
  obtain ⟨htab, -, rfl⟩ := record_status_ok_eq hconn hok
  exact ⟨_, _, rfl, rfl, rfl, rfl, rfl⟩

theorem C1_witness :
    sampleRec.journal = some sampleConn ∧
    sampleRec.record_status sampleState "STARTED" sampleClock =
      Except.ok sampleRec1 ∧
    (∃ c' st, sampleRec1.journal = some c' ∧
      c'.pending.test_journal = sampleConn.pending.test_journal ++
        [⟨sampleState.tagged_name, sampleClock.isoformat, "STARTED", st, false⟩] ∧
      c'.committed = c'.pending ∧
      c'.pending.job_info = sampleConn.pending.job_info ∧
      c'.path = sampleConn.path) :=
  ⟨rfl, rfl,
    C1_record_status_appends_one_row_and_commits sampleRec sampleRec1
      sampleConn sampleState "STARTED" sampleClock rfl rfl⟩

/-- C2 (code bug): the claim — and the spec — say that calling `end_tests`
on a recorder that never initialized (no test ever started) is a safe
no-op.  The code instead raises `AttributeError`: `__init__` only sets
`journal_initialized = False`, so `_shutdown_journal`'s `self.journal.close()`
reads an attribute that was never assigned.  This theorem evaluates the
embedded code at the failing input. -/
theorem C2_end_tests_uninitialized_raises_attributeError :
    TestResultJournal_new.end_tests = Except.error PyError.attributeError :=
  rfl

/-- C3: the `time` column of every inserted row is the ISO-8601 rendering
of the recorder's wall clock read at the moment of the write call — the
year-1 instance `datetime.datetime(1, 1, 1)` is discarded by the
classmethod `now` — and across two sequential writes whose clock readings
are chronologically non-decreasing (and in `datetime`'s valid range), the
stored strings are non-decreasing in the lexical string order as well. -/
theorem C3_time_is_current_clock_and_lexically_monotone
    (r r' r'' : Recorder) (conn : Conn) (state₁ state₂ : State)
    (action₁ action₂ : String) (t₁ t₂ : PyDateTime)
    (hconn : r.journal = some conn)
    (h₁ : r.record_status state₁ action₁ t₁ = Except.ok r')
    (h₂ : r'.record_status state₂ action₂ t₂ = Except.ok r'')
    (hv₁ : t₁.valid) (hv₂ : t₂.valid) (hle : t₁.chronoLe t₂) :
    ∃ c'' row₁ row₂, r''.journal = some c'' ∧
      c''.pending.test_journal = conn.pending.test_journal ++ [row₁, row₂] ∧
      row₁.time = t₁.isoformat ∧ row₂.time = t₂.isoformat ∧
      row₁.time ≤ row₂.time := by
  obtain ⟨-, -, rfl⟩ := record_status_ok_eq hconn h₁
  obtain ⟨-, -, rfl⟩ := record_status_ok_eq rfl h₂
  refine ⟨_,
    ⟨state₁.tagged_name, t₁.isoformat, action₁,
      (if action₁ = "ENDED" then state₁.status else none), false⟩,
    ⟨state₂.tagged_name, t₂.isoformat, action₂,
      (if action₂ = "ENDED" then state₂.status else none), false⟩,
    rfl, ?_, rfl, rfl, isoformat_le_of_chronoLe hv₁ hv₂ hle⟩
  simp [Conn.commit, List.append_assoc]

theorem C3_witness :
    sampleRec.journal = some sampleConn ∧
    sampleRec.record_status sampleState "STARTED" sampleClock =
      Except.ok sampleRec1 ∧
    sampleRec1.record_status sampleState "ENDED" sampleClock2 =
      Except.ok sampleRec2 ∧
    sampleClock.valid ∧ sampleClock2.valid ∧ sampleClock.chronoLe sampleClock2 ∧
    (∃ c'' row₁ row₂, sampleRec2.journal = some c'' ∧
      c''.pending.test_journal = sampleConn.pending.test_journal ++ [row₁, row₂] ∧
      row₁.time = sampleClock.isoformat ∧ row₂.time = sampleClock2.isoformat ∧
      row₁.time ≤ row₂.time) :=
  ⟨rfl, rfl, rfl, by decide, by decide, by decide,
    C3_time_is_current_clock_and_lexically_monotone sampleRec sampleRec1
      sampleRec2 sampleConn sampleState sampleState "STARTED" "ENDED"
      sampleClock sampleClock2 rfl rfl rfl (by decide) (by decide) (by decide)⟩

/-- C4: schema creation is idempotent.  Opening the journal (`_init_journal`)
against any on-disk content never raises: each of the two tables is created
only when its `PRAGMA table_info` metadata query returns no row, existing
rows of both tables are never altered, and the result is committed.
Re-running initialization against the resulting already-initialized file
leaves the database exactly as it was. -/
theorem C4_init_journal_schema_idempotent
    (r : Recorder) (logdir : String) (file : Option DB) :
    ∃ r' conn', r.init_journal file logdir = Except.ok r' ∧
      r'.journal = some conn' ∧
      conn'.committed = conn'.pending ∧
      conn'.pending.hasJobInfo = true ∧
      conn'.pending.hasTestJournal = true ∧
      conn'.pending.job_info = (file.getD emptyDB).job_info ∧
      conn'.pending.test_journal = (file.getD emptyDB).test_journal ∧
      (∀ (r₂ : Recorder) (logdir₂ : String), ∃ r₂' conn₂',
        r₂.init_journal (some conn'.committed) logdir₂ = Except.ok r₂' ∧
        r₂'.journal = some conn₂' ∧
        conn₂'.pending = conn'.committed ∧
        conn₂'.committed = conn'.committed) := by
  refine ⟨_, _, init_journal_eq r file logdir, rfl, rfl, rfl, rfl, rfl, rfl,
    fun r₂ logdir₂ => ?_⟩
  refine ⟨_, _, init_journal_eq r₂ _ logdir₂, rfl, ?_, ?_⟩ <;> rfl

/-- C5: `_record_job_info` first selects from `job_info` and inserts the
job's unique id (with an immediate commit) only when no row exists, so the
table ends with exactly one row whenever it previously held at most one;
in particular running the start-notification path any number of times —
including a second job against the same journal file — leaves exactly one
`job_info` row. -/
theorem C5_job_info_at_most_one_row
    (r : Recorder) (conn : Conn) (state : State)
    (hconn : r.journal = some conn) (htab : conn.pending.hasJobInfo = true) :
    ∃ r' c', r.record_job_info state = Except.ok r' ∧ r'.journal = some c' ∧
      c'.pending.job_info =
        (if conn.pending.job_info = [] then [state.job_unique_id]
         else conn.pending.job_info) ∧
      (conn.pending.job_info.length ≤ 1 → c'.pending.job_info.length = 1) ∧
      (conn.pending.job_info = [] → c'.committed = c'.pending) := by
  rw [record_job_info_eq r conn state hconn htab]
  cases hji : conn.pending.job_info with
  | nil =>
      simp only [reduceIte]
      refine ⟨_, _, rfl, rfl, ?_, ?_, ?_⟩ <;> simp [Conn.commit]
  | cons x xs =>
      simp only [reduceIte]
      refine ⟨_, conn, rfl, hconn, ?_, ?_, ?_⟩ <;> simp
      · exact hji
      · intro h
        simp [hji, h]

theorem C5_witness :
    sampleRec.journal = some sampleConn ∧
    sampleConn.pending.hasJobInfo = true ∧
    (∃ r' c', sampleRec.record_job_info sampleState = Except.ok r' ∧
      r'.journal = some c' ∧
      c'.pending.job_info =
        (if sampleConn.pending.job_info = [] then [sampleState.job_unique_id]
         else sampleConn.pending.job_info) ∧
      (sampleConn.pending.job_info.length ≤ 1 →
        c'.pending.job_info.length = 1) ∧
      (sampleConn.pending.job_info = [] → c'.committed = c'.pending)) :=
  ⟨rfl, rfl, C5_job_info_at_most_one_row sampleRec sampleConn sampleState rfl rfl⟩

/-- C6: a row written with `action=ENDED` carries exactly the status value
supplied in that call's `state['status']`, and a row written with
`action=STARTED` carries a null status. -/
theorem C6_status_placement
    (r : Recorder) (conn : Conn) (state : State) (clock : PyDateTime)
    (hconn : r.journal = some conn) :
    (∀ r', r.record_status state "ENDED" clock = Except.ok r' →
      ∃ c' v, state.status = some v ∧ r'.journal = some c' ∧
        c'.pending.test_journal = conn.pending.test_journal ++
          [⟨state.tagged_name, clock.isoformat, "ENDED", some v, false⟩]) ∧
    (∀ r', r.record_status state "STARTED" clock = Except.ok r' →
      ∃ c', r'.journal = some c' ∧
        c'.pending.test_journal = conn.pending.test_journal ++
          [⟨state.tagged_name, clock.isoformat, "STARTED", none, false⟩]) := by
  constructor
  · intro r' hok
    obtain ⟨-, hne, rfl⟩ := record_status_ok_eq hconn hok
    cases hst : state.status with
    | none => exact absurd hst (hne rfl)
    | some v => exact ⟨_, v, rfl, rfl, by simp [hst, Conn.commit]⟩
  · intro r' hok
    obtain ⟨-, -, rfl⟩ := record_status_ok_eq hconn hok
    exact ⟨_, rfl, by simp [Conn.commit]⟩

theorem C6_witness :
    sampleRec.journal = some sampleConn ∧
    sampleRec.record_status sampleState "ENDED" sampleClock =
      Except.ok sampleRecE ∧
    (∃ c' v, sampleState.status = some v ∧ sampleRecE.journal = some c' ∧
      c'.pending.test_journal = sampleConn.pending.test_journal ++
        [⟨sampleState.tagged_name, sampleClock.isoformat, "ENDED", some v, false⟩]) ∧
    sampleRec.record_status sampleState "STARTED" sampleClock =
      Except.ok sampleRec1 ∧
    (∃ c', sampleRec1.journal = some c' ∧
      c'.pending.test_journal = sampleConn.pending.test_journal ++
        [⟨sampleState.tagged_name, sampleClock.isoformat, "STARTED", none, false⟩]) :=
  ⟨rfl, rfl,
    (C6_status_placement sampleRec sampleConn sampleState sampleClock rfl).1
      sampleRecE rfl,
    rfl,
    (C6_status_placement sampleRec sampleConn sampleState sampleClock rfl).2
      sampleRec1 rfl⟩

/-- C7: initialization is lazy and happens exactly once.  On the first
lifecycle notification (the recorder's flag is still false) the recorder
opens the database under the notification's `job_logdir`, ensures the
schema, records the job's unique id insert-if-absent, and sets the flag;
on every later notification `lazy_init_journal` is the identity — same
connection object, nothing reopened, no job info re-recorded — and a
subsequent `start_test` only appends one `test_journal` row, preserving
the connection path and the `job_info` rows. -/
theorem C7_lazy_initialization_exactly_once (file : Option DB) (state : State) :
    (∀ r : Recorder, r.journal_initialized = true →
      r.lazy_init_journal file state = Except.ok r) ∧
    (∃ r' conn', TestResultJournal_new.lazy_init_journal file state =
        Except.ok r' ∧
      r'.journal_initialized = true ∧
      r'.journal_path = some (osPathJoin state.job_logdir JOURNAL_FILENAME) ∧
      r'.journal = some conn' ∧
      conn'.pending.hasJobInfo = true ∧
      conn'.pending.hasTestJournal = true ∧
      conn'.pending.job_info =
        (if (file.getD emptyDB).job_info = [] then [state.job_unique_id]
         else (file.getD emptyDB).job_info) ∧
      conn'.pending.test_journal = (file.getD emptyDB).test_journal) ∧
    (∀ (r : Recorder) (conn : Conn) (clock : PyDateTime) (r'' : Recorder),
      r.journal_initialized = true → r.journal = some conn →
      r.start_test file state clock = Except.ok r'' →
      r''.journal_initialized = true ∧
      r''.journal_path = r.journal_path ∧
      ∃ c'', r''.journal = some c'' ∧ c''.path = conn.path ∧
        c''.pending.job_info = conn.pending.job_info ∧
        ∃ row, c''.pending.test_journal = conn.pending.test_journal ++ [row]) := by
  refine ⟨fun r h => lazy_init_initialized_eq r file state h, ?_, ?_⟩
  · exact ⟨_, _, lazy_init_uninitialized_eq TestResultJournal_new file state rfl,
      rfl, rfl, rfl, rfl, rfl, rfl, rfl⟩
  · intro r conn clock r'' hinit hconn hok
    unfold Recorder.start_test at hok
    rw [lazy_init_initialized_eq r file state hinit] at hok
    simp only [bind, Except.bind] at hok
    obtain ⟨-, -, rfl⟩ := record_status_ok_eq hconn hok
    exact ⟨hinit, rfl, _, rfl, rfl, rfl,
      ⟨state.tagged_name, clock.isoformat, "STARTED",
        (if "STARTED" = "ENDED" then state.status else none), false⟩,
      by simp [Conn.commit]⟩

theorem C7_witness :
    (sampleRec.lazy_init_journal none sampleState = Except.ok sampleRec) ∧
    (∃ r' conn', TestResultJournal_new.lazy_init_journal none sampleState =
        Except.ok r' ∧
      r'.journal_initialized = true ∧
      r'.journal_path =
        some (osPathJoin sampleState.job_logdir JOURNAL_FILENAME) ∧
      r'.journal = some conn' ∧
      conn'.pending.hasJobInfo = true ∧
      conn'.pending.hasTestJournal = true ∧
      conn'.pending.job_info =
        (if ((none : Option DB).getD emptyDB).job_info = [] then
          [sampleState.job_unique_id]
         else ((none : Option DB).getD emptyDB).job_info) ∧
      conn'.pending.test_journal =
        ((none : Option DB).getD emptyDB).test_journal) ∧
    (sampleRec.start_test none sampleState sampleClock =
      Except.ok sampleRec1 →
      sampleRec1.journal_initialized = true ∧
      sampleRec1.journal_path = sampleRec.journal_path ∧
      ∃ c'', sampleRec1.journal = some c'' ∧ c''.path = sampleConn.path ∧
        c''.pending.job_info = sampleConn.pending.job_info ∧
        ∃ row, c''.pending.test_journal =
          sampleConn.pending.test_journal ++ [row]) :=
  ⟨(C7_lazy_initialization_exactly_once none sampleState).1 sampleRec rfl,
   (C7_lazy_initialization_exactly_once none sampleState).2.1,
   (C7_lazy_initialization_exactly_once none sampleState).2.2 sampleRec
     sampleConn sampleClock sampleRec1 rfl rfl⟩

/-- C8: the journal file path is always `os.path.join` of the first
notification's `job_logdir` with the fixed module constant
`JOURNAL_FILENAME = ".journal.sqlite"`, both as the recorder's stored
`journal_path` and as the path the connection was opened on; for
`job_logdir = "/tmp/run1"` this is `"/tmp/run1/.journal.sqlite"`. -/
theorem C8_journal_path_fixed_filename_under_logdir
    (state : State) (file : Option DB) :
    (∃ r' c', TestResultJournal_new.lazy_init_journal file state =
        Except.ok r' ∧
      r'.journal_path = some (osPathJoin state.job_logdir JOURNAL_FILENAME) ∧
      r'.journal = some c' ∧
      c'.path = osPathJoin state.job_logdir JOURNAL_FILENAME) ∧
    JOURNAL_FILENAME = ".journal.sqlite" ∧
    osPathJoin "/tmp/run1" JOURNAL_FILENAME = "/tmp/run1/.journal.sqlite" := by
  refine ⟨⟨_, _, lazy_init_uninitialized_eq TestResultJournal_new file state rfl,
    rfl, rfl, rfl⟩, rfl, by decide⟩

/-- C10: `start_test` never reads `state['status']`: the recorded status is
forced to null without touching that key, so two start notifications whose
states differ only in the `status` entry (present with any value, or
absent, i.e. `none`) produce identical results on any recorder, and a
start notification with no `status` key at all succeeds. -/
theorem C10_start_test_ignores_status_key
    (r : Recorder) (file : Option DB) (logdir uid tag : String)
    (s₁ s₂ : Option String) (clock : PyDateTime) :
    r.start_test file ⟨logdir, uid, tag, s₁⟩ clock =
      r.start_test file ⟨logdir, uid, tag, s₂⟩ clock ∧
    ∃ r', TestResultJournal_new.start_test file ⟨logdir, uid, tag, none⟩ clock =
      Except.ok r' := by
  constructor
  · unfold Recorder.start_test
    cases hinit : r.journal_initialized
    · rw [lazy_init_uninitialized_eq r file ⟨logdir, uid, tag, s₁⟩ hinit,
        lazy_init_uninitialized_eq r file ⟨logdir, uid, tag, s₂⟩ hinit]
      simp only [bind, Except.bind]
      unfold Recorder.record_status
      simp [State.getStatus]
    · rw [lazy_init_initialized_eq r file ⟨logdir, uid, tag, s₁⟩ hinit,
        lazy_init_initialized_eq r file ⟨logdir, uid, tag, s₂⟩ hinit]
      simp only [bind, Except.bind]
      unfold Recorder.record_status
      simp [State.getStatus]
  · rcases file with _ | ⟨⟨hj, htj, ji, tj⟩⟩
    · exact ⟨_, rfl⟩
    · cases hj <;> cases htj <;> cases ji <;> exact ⟨_, rfl⟩

/-! ## Run-level append-only lemmas -/

theorem step_initialized_eq (file : Option DB) (e : Event)
    {r r' : Recorder} {conn : Conn}
    (hinit : r.journal_initialized = true) (hconn : r.journal = some conn)
    (hok : r.step file e = Except.ok r') :
    r'.journal_initialized = true ∧ ∃ c' row, r'.journal = some c' ∧
      row.flushed = false ∧
      c'.pending.test_journal = conn.pending.test_journal ++ [row] ∧
      c'.pending.job_info = conn.pending.job_info := by
  cases e with
  | startT s t =>
      simp only [Recorder.step, Recorder.start_test] at hok
      rw [lazy_init_initialized_eq r file s hinit] at hok
      simp only [bind, Except.bind] at hok
      obtain ⟨-, -, rfl⟩ := record_status_ok_eq hconn hok
      exact ⟨hinit, _,
        ⟨s.tagged_name, t.isoformat, "STARTED",
          (if "STARTED" = "ENDED" then s.status else none), false⟩,
        rfl, rfl, by simp [Conn.commit], rfl⟩
  | endT s t =>
      simp only [Recorder.step, Recorder.end_test] at hok
      rw [lazy_init_initialized_eq r file s hinit] at hok
      simp only [bind, Except.bind] at hok
      obtain ⟨-, -, rfl⟩ := record_status_ok_eq hconn hok
      exact ⟨hinit, _,
        ⟨s.tagged_name, t.isoformat, "ENDED",
          (if "ENDED" = "ENDED" then s.status else none), false⟩,
        rfl, rfl, by simp [Conn.commit], rfl⟩

theorem step_uninitialized_eq (file : Option DB) (e : Event)
    {r r' : Recorder}
    (hinit : r.journal_initialized = false)
    (hok : r.step file e = Except.ok r') :
    r'.journal_initialized = true ∧ ∃ c' row suf, r'.journal = some c' ∧
      row.flushed = false ∧
      c'.pending.test_journal = (file.getD emptyDB).test_journal ++ [row] ∧
      c'.pending.job_info = (file.getD emptyDB).job_info ++ suf := by
  cases e with
  | startT s t =>
      simp only [Recorder.step, Recorder.start_test] at hok
      rw [lazy_init_uninitialized_eq r file s hinit] at hok
      simp only [bind, Except.bind] at hok
      obtain ⟨-, -, rfl⟩ := record_status_ok_eq rfl hok
      refine ⟨rfl, _,
        ⟨s.tagged_name, t.isoformat, "STARTED",
          (if "STARTED" = "ENDED" then s.status else none), false⟩,
        (if (file.getD emptyDB).job_info = [] then [s.job_unique_id] else []),
        rfl, rfl, by simp [Conn.commit], ?_⟩
      cases hji : (file.getD emptyDB).job_info with
      | nil => simp [Conn.commit, hji]
      | cons x xs => simp [Conn.commit, hji]
  | endT s t =>
      simp only [Recorder.step, Recorder.end_test] at hok
      rw [lazy_init_uninitialized_eq r file s hinit] at hok
      simp only [bind, Except.bind] at hok
      obtain ⟨-, -, rfl⟩ := record_status_ok_eq rfl hok
      refine ⟨rfl, _,
        ⟨s.tagged_name, t.isoformat, "ENDED",
          (if "ENDED" = "ENDED" then s.status else none), false⟩,
        (if (file.getD emptyDB).job_info = [] then [s.job_unique_id] else []),
        rfl, rfl, by simp [Conn.commit], ?_⟩
      cases hji : (file.getD emptyDB).job_info with
      | nil => simp [Conn.commit, hji]
      | cons x xs => simp [Conn.commit, hji]

theorem run_initialized_append_only (file : Option DB) :
    ∀ (es : List Event) {r r' : Recorder} {conn : Conn},
      r.journal_initialized = true → r.journal = some conn →
      r.run file es = Except.ok r' →
      r'.journal_initialized = true ∧ ∃ c' suf, r'.journal = some c' ∧
        c'.pending.test_journal = conn.pending.test_journal ++ suf ∧
        (∀ row ∈ suf, row.flushed = false) ∧
        c'.pending.job_info = conn.pending.job_info
  | [], r, r', conn, hinit, hconn, hok => by
      cases hok
      exact ⟨hinit, conn, [], hconn, by simp, by simp, rfl⟩
  | e :: es, r, r', conn, hinit, hconn, hok => by
      unfold Recorder.run at hok
      cases hstep : r.step file e with
      | error err => rw [hstep] at hok; cases hok
      | ok r₁ =>
          rw [hstep] at hok
          simp only [bind, Except.bind] at hok
          obtain ⟨hinit₁, c₁, row, hc₁, hfl, htj, hji⟩ :=
            step_initialized_eq file e hinit hconn hstep
          obtain ⟨hinit', c', suf, hc', htj', hfl', hji'⟩ :=
            run_initialized_append_only file es hinit₁ hc₁ hok
          refine ⟨hinit', c', row :: suf, hc', ?_, ?_, ?_⟩
          · rw [htj', htj, List.append_assoc]
            rfl
          · intro q hq
            rcases List.mem_cons.mp hq with rfl | hq
            · exact hfl
            · exact hfl' q hq
          · rw [hji', hji]

/-- C9: the journal is append-only.  Across any run of lifecycle
notifications the earlier `test_journal` rows are preserved as a prefix
(nothing is updated or deleted) and every row the recorder appends leaves
`flushed` at its schema default `false` (the INSERT names only
`tag, time, action, status`); `job_info` likewise only ever grows; and the
run-level close executes no SQL at all, leaving every row untouched. -/
theorem C9_append_only_and_flushed_false
    (es : List Event) (file : Option DB) (r' : Recorder)
    (hok : TestResultJournal_new.run file es = Except.ok r') :
    (∃ suf, journalRows file r' = (file.getD emptyDB).test_journal ++ suf ∧
      ∀ row ∈ suf, row.flushed = false) ∧
    (∃ suf₂, jobInfoRows file r' = (file.getD emptyDB).job_info ++ suf₂) ∧
    (∀ (q q' : Recorder), q.end_tests = Except.ok q' → q' = q) := by
  have main : (∃ suf,
      journalRows file r' = (file.getD emptyDB).test_journal ++ suf ∧
      ∀ row ∈ suf, row.flushed = false) ∧
      (∃ suf₂, jobInfoRows file r' = (file.getD emptyDB).job_info ++ suf₂) := by
    cases es with
    | nil =>
        cases hok
        exact ⟨⟨[], by simp [journalRows, TestResultJournal_new], by simp⟩,
          ⟨[], by simp [jobInfoRows, TestResultJournal_new]⟩⟩
    | cons e es =>
        unfold Recorder.run at hok
        cases hstep : TestResultJournal_new.step file e with
        | error err => rw [hstep] at hok; cases hok
        | ok r₁ =>
            rw [hstep] at hok
            simp only [bind, Except.bind] at hok
            obtain ⟨hinit₁, c₁, row, suf₀, hc₁, hfl, htj, hji⟩ :=
              step_uninitialized_eq file e rfl hstep
            obtain ⟨hinit', c', suf, hc', htj', hfl', hji'⟩ :=
              run_initialized_append_only file es hinit₁ hc₁ hok
            refine ⟨⟨row :: suf, ?_, ?_⟩, ⟨suf₀, ?_⟩⟩
            · simp [journalRows, hc', htj', htj, List.append_assoc]
            · intro q hq
              rcases List.mem_cons.mp hq with rfl | hq
              · exact hfl
              · exact hfl' q hq
            · simp [jobInfoRows, hc', hji', hji]
  refine ⟨main.1, main.2, fun q q' h => ?_⟩
  unfold Recorder.end_tests Recorder.shutdown_journal at h
  cases hq : q.journal with
  | some c => rw [hq] at h; cases h; rfl
  | none => rw [hq] at h; cases h

theorem C9_witness :
    TestResultJournal_new.run none [Event.startT sampleState sampleClock] =
      Except.ok sampleRec1 ∧
    ((∃ suf, journalRows none sampleRec1 =
        ((none : Option DB).getD emptyDB).test_journal ++ suf ∧
      ∀ row ∈ suf, row.flushed = false) ∧
    (∃ suf₂, jobInfoRows none sampleRec1 =
        ((none : Option DB).getD emptyDB).job_info ++ suf₂) ∧
    (∀ (q q' : Recorder), q.end_tests = Except.ok q' → q' = q)) :=
  ⟨rfl, C9_append_only_and_flushed_false
    [Event.startT sampleState sampleClock] none sampleRec1 rfl⟩
